import Mathlib

/-!
Verification development for the djifix video-repair program (src/djifix.c).

Modelling conventions (shallow embedding):
* The input file is a `List Nat` of bytes; the read cursor is a `Nat` position.
  `fgetc` yields an `unsigned char`, so every byte read is taken `% 256`.
* C `unsigned` (32-bit) arithmetic is modelled on `Nat` with explicit masks:
  `x & 0xFF000000` becomes `x / 0x1000000 % 0x100 * 0x1000000` and so on; all
  words assembled by `get4Bytes` are `< 2^32`, so no extra wrap is needed except
  where the C code shifts left (`nalSize = (nalSize<<8)|c`), which is modelled
  as `(acc % 0x1000000) * 256 + c % 256`.
* `fseek` on a regular seekable file succeeds (seeking past end-of-file is
  legal in C), so relative seeks are modelled as pure position arithmetic.
* Writing to the output is modelled by an accumulating `List Nat`.
  `fputc(c)` writes `c % 256`; in particular `fputc(fgetc(f))` at end of file
  writes `(-1) & 0xFF = 0xFF`.
* The interactive format prompt and the SPS/PPS/VPS catalog blobs are data,
  not algorithm; the re-framing loops are modelled from the point after the
  parameter sets have been written, with the parameter-set prefix left out.
  Diagnostic `fprintf` output and the `printableMetadataCount` counter (which
  only gates a diagnostic print whose file position is saved and restored) are
  not modelled; they do not affect the output bytes or the cursor.
* The loops `doRepairType2`, `doRepairType4` and `doRepairType3or5Common` are
  given an explicit fuel argument (one unit per loop iteration); theorems are
  stated as fuel-generic step equations, which are exactly the loop semantics.
-/

/-- get1Byte (src/djifix.c:566): read one byte at `pos`; `fgetc` returns an
unsigned char, hence the `% 256`. Failure means end of input. -/
def get1Byte (s : List Nat) (pos : Nat) : Option Nat :=
  (s[pos]?).map (fun c => c % 256)

/-- get2Bytes (src/djifix.c:576): big-endian assembly `(c1<<8)|c2`. -/
def get2Bytes (s : List Nat) (pos : Nat) : Option Nat :=
  match get1Byte s pos, get1Byte s (pos + 1) with
  | some c1, some c2 => some (c1 * 0x100 + c2)
  | _, _ => none

/-- get4Bytes (src/djifix.c:586): big-endian assembly `(c1<<24)|(c2<<16)|(c3<<8)|c4`. -/
def get4Bytes (s : List Nat) (pos : Nat) : Option Nat :=
  match get1Byte s pos, get1Byte s (pos + 1), get1Byte s (pos + 2), get1Byte s (pos + 3) with
  | some c1, some c2, some c3, some c4 =>
      some (c1 * 0x1000000 + c2 * 0x10000 + c3 * 0x100 + c4)
  | _, _, _, _ => none

/-- checkFor0x00000002 (src/djifix.c:163): the legacy 2-byte-NAL signature.
`first4Bytes == 0x00000002`, the first two bytes of `next4Bytes` are non-zero
and its third byte is zero.  `(x&0xFF000000)≠0` is `x/0x1000000%0x100 ≠ 0`,
`(x&0x00FF0000)≠0` is `x/0x10000%0x100 ≠ 0`, `(x&0x0000FF00)=0` is
`x/0x100%0x100 = 0`. -/
def checkFor0x00000002 (first4Bytes next4Bytes : Nat) : Bool :=
  first4Bytes == 0x00000002
    && next4Bytes / 0x1000000 % 0x100 != 0
    && next4Bytes / 0x10000 % 0x100 != 0
    && next4Bytes / 0x100 % 0x100 == 0

/-- checkForVideo (src/djifix.c:172): the embedded parameter-set signature.
The guard `(first4Bytes&0xFFFFFF00) != 0 → 0` is `first4Bytes/0x100%0x1000000 ≠ 0`. -/
def checkForVideo (first4Bytes next4Bytes : Nat) : Bool :=
  if first4Bytes / 0x100 % 0x1000000 != 0 then false
  else
    (first4Bytes == 0x00000002
      && next4Bytes / 0x1000000 % 0x100 != 0
      && next4Bytes / 0x10000 % 0x100 != 0
      && next4Bytes / 0x100 % 0x100 == 0)
    || (next4Bytes / 0x1000000 % 0x100 == 0x27
        && decide (25 < first4Bytes) && decide (first4Bytes < 60))
    || (next4Bytes / 0x1000000 % 0x100 == 0x40
        && decide (30 < first4Bytes) && decide (first4Bytes < 60))
    || (next4Bytes / 0x1000000 % 0x100 == 0x67
        && decide (10 < first4Bytes) && decide (first4Bytes < 40))

/-- the anomaly condition of the Type 2 and Type 4 re-framing loops
(src/djifix.c:815 and 1046): `nalSize == 0 || nalSize > 0x008FFFFF`.
The same test guards checkForVideoType4 (src/djifix.c:193). -/
def type2or4Anomalous (nalSize : Nat) : Bool :=
  nalSize == 0 || decide (0x008FFFFF < nalSize)

/-- the anomaly condition of the Type 3/5 re-framing loop (src/djifix.c:1273):
`nalSize == 0 || nalSize > 0x00FFFFFF`. -/
def type35Anomalous (nalSize : Nat) : Bool :=
  nalSize == 0 || decide (0x00FFFFFF < nalSize)

/-- checkForVideoType4 (src/djifix.c:189): the Type 4 resume signature.
`nextByte = next4Bytes>>24` and `nextNextByte = next4Bytes>>16` are stored
into `unsigned char`, hence the `% 0x100`. -/
def checkForVideoType4 (first4Bytes next4Bytes : Nat) : Bool :=
  if type2or4Anomalous first4Bytes then false
  else
    let nextByte := next4Bytes / 0x1000000 % 0x100
    let nextNextByte := next4Bytes / 0x10000 % 0x100
    if nextByte == 0x00 then nextNextByte == 0x01
    else if nextByte == 0x01 then nextNextByte == 0xFD
    else if nextByte == 0x02 then nextNextByte == 0x01
    else if nextByte == 0x26 then nextNextByte == 0x01
    else if nextByte == 0x28 then nextNextByte == 0x01
    else if nextByte == 0x40 then nextNextByte == 0x01
    else if nextByte == 0x41 then decide (0xE0 ≤ nextNextByte) && decide (nextNextByte ≤ 0xFC)
    else if nextByte == 0x42 then nextNextByte == 0x01
    else if nextByte == 0x44 then nextNextByte == 0x01
    else if nextByte == 0x65 then nextNextByte == 0xB8
    else false

/-- fourcc ('f'<<24)|('t'<<16)|('y'<<8)|'p' (src/djifix.c:219). -/
def fourcc_ftyp : Nat := 0x66747970

/-- fourcc ('i'<<24)|('s'<<16)|('o'<<8)|'m' (src/djifix.c:220). -/
def fourcc_isom : Nat := 0x69736F6D

/-- fourcc ('m'<<24)|('d'<<16)|('a'<<8)|'t' (src/djifix.c:221). -/
def fourcc_mdat : Nat := 0x6D646174

/-- fourcc ('m'<<24)|('o'<<16)|('o'<<8)|'v' (src/djifix.c:223). -/
def fourcc_moov : Nat := 0x6D6F6F76

/-- result of `checkAtom`: a match handing back `atomSize - 8` bytes to skip,
a match on a 'mdat' atom (size field never consulted), a non-match (the
8 bytes are rewound, the cursor is back at the entry position), or the fatal
`exit(1)` on an extended (64-bit) atom size. -/
inductive AtomCheck where
  | matched (numRemainingBytesToSkip : Nat)
  | matchedMdat
  | noMatch
  | fatalExtendedSize
deriving DecidableEq

/-- predicate for AtomCheck: did the walker hand the caller a skip count? -/
def AtomCheck.isMatched : AtomCheck → Bool
  | .matched _ => true
  | _ => false

/-- checkAtom (src/djifix.c:598): read a 4-byte size and 4-byte fourcc at
`pos`; mismatching tag or failed read rewinds (no match); a matching 'mdat'
returns success before the size is ever examined; size 1 (64-bit extended
size) is fatal for other tags; size < 8 rewinds; otherwise the caller gets
`atomSize - 8` bytes to skip. -/
def checkAtom (s : List Nat) (pos : Nat) (fourccToCheck : Nat) : AtomCheck :=
  match get4Bytes s pos with
  | none => .noMatch
  | some atomSize =>
    match get4Bytes s (pos + 4) with
    | none => .noMatch
    | some fourcc =>
      if fourcc != fourccToCheck then .noMatch
      else if fourcc == fourcc_mdat then .matchedMdat
      else if atomSize == 1 then .fatalExtendedSize
      else if decide (atomSize < 8) then .noMatch
      else .matched (atomSize - 8)

/-- big-endian serialization of a 32-bit word, as written by the four
`fputc(x>>24); fputc(x>>16); fputc(x>>8); fputc(x)` calls (each truncated to
an unsigned char). Also used to build concrete test inputs. -/
def be32 (n : Nat) : List Nat :=
  [n / 0x1000000 % 0x100, n / 0x10000 % 0x100, n / 0x100 % 0x100, n % 0x100]

/-- doRepairType1 (src/djifix.c:628): write the corrected size, the literal
tag "ftyp" (bytes 0x66 0x74 0x79 0x70), then copy the rest of the input
byte-for-byte (`get1Byte` yields bytes `% 256`). -/
def doRepairType1 (ftypSize : Nat) (rest : List Nat) : List Nat :=
  be32 ftypSize ++ [0x66, 0x74, 0x79, 0x70] ++ rest.map (fun c => c % 256)

/-- the start code 00 00 00 01 written by putStartCode (src/djifix.c:649). -/
def startCode : List Nat := [0x00, 0x00, 0x00, 0x01]

/-- payload copy `while (nalSize-- > 0) wr(fgetc(inputFID));`
(src/djifix.c:810, 1079, 1283): copy `len` bytes starting at `pos`; past end
of input `fgetc` returns EOF = -1 and `fputc` writes `(-1) & 0xFF = 0xFF`. -/
def copyNal (s : List Nat) (pos : Nat) : Nat → List Nat
  | 0 => []
  | len + 1 => (get1Byte s pos).getD 0xFF :: copyNal s (pos + 1) len

/-- one shift of the 4-byte accumulator in the Type 2 recovery scan
(src/djifix.c:827): `nalSize = (nalSize<<8)|c` on a 32-bit unsigned. -/
def shiftWord32 (acc c : Nat) : Nat :=
  (acc % 0x1000000) * 0x100 + c % 0x100

/-- the Type 2 anomaly recovery scan (src/djifix.c:825-828): repeatedly read
one byte and shift it into the 4-byte accumulator until the accumulator
equals 0x00000002; returns the cursor position after the matching byte, or
`none` when end of input is reached first (the C code returns).  The scan
consumes one byte per step, so `fuel = s.length - pos` at the call site makes
the fuel-out case coincide with end of input. -/
def doRepairType2Recover (s : List Nat) : Nat → Nat → Nat → Option Nat
  | 0, _, _ => none
  | fuel + 1, pos, acc =>
    match s[pos]? with
    | none => none
    | some c =>
      if shiftWord32 acc c = 2 then some (pos + 1)
      else doRepairType2Recover s fuel (pos + 1) (shiftWord32 acc c)

/-- the main loop of doRepairType2 (src/djifix.c:808-833), entered with the
current NAL size in hand: write a start code, copy `nalSize` payload bytes,
read the next 4-byte NAL size (end of input returns), and on an anomalous
size scan for a resynchronization point (resuming with nalSize 2) or return
if the scan exhausts the input.  `fuel` counts loop iterations. -/
def doRepairType2Loop (s : List Nat) : Nat → Nat → Nat → List Nat → List Nat
  | 0, _, _, out => out
  | fuel + 1, pos, nalSize, out =>
    let out' := out ++ startCode ++ copyNal s pos nalSize
    match get4Bytes s (pos + nalSize) with
    | none => out'
    | some n =>
      if type2or4Anomalous n then
        match doRepairType2Recover s (s.length - (pos + nalSize + 4)) (pos + nalSize + 4) n with
        | none => out'
        | some p => doRepairType2Loop s fuel p 2 out'
      else doRepairType2Loop s fuel (pos + nalSize + 4) n out'

/-- the first NAL size of the Type 2 repair (src/djifix.c:806):
`((second4Bytes&0xFFFF)<<16)|(c1<<8)|c2`, where c1 c2 are the first two
input bytes after the matched window. -/
def type2FirstNalSize (second4Bytes c1 c2 : Nat) : Nat :=
  (second4Bytes % 0x10000) * 0x10000 + (c1 % 0x100) * 0x100 + c2 % 0x100

/-- doRepairType2 (src/djifix.c:692-835) from the point after the SPS and PPS
have been written (the catalog blobs are external data and are left out of
the model): write a start code and the first 2-byte NAL unit
(`wr(second4Bytes>>24); wr(second4Bytes>>16)`), read the two bytes that
complete the first 4-byte NAL size, and run the loop.  Position 0 of `s` is
the first input byte after the matched 8-byte window. -/
def doRepairType2Body (second4Bytes : Nat) (s : List Nat) (fuel : Nat) : List Nat :=
  let pre := startCode ++ [second4Bytes / 0x1000000 % 0x100, second4Bytes / 0x10000 % 0x100]
  match get1Byte s 0, get1Byte s 1 with
  | some c1, some c2 => doRepairType2Loop s fuel 2 (type2FirstNalSize second4Bytes c1 c2) pre
  | _, _ => pre

/-- the Type 4 anomaly recovery scan (src/djifix.c:1056-1063): slide the
8-byte window (`nalSize`, `next4Bytes`) one byte at a time until
checkForVideoType4 matches; `pos` is the cursor just past the window.
Returns the cursor position past the matched window together with the lead
word, or `none` at end of input (the C code returns).  The signature test
precedes the byte read, so `fuel = s.length - pos` at the call site makes
the fuel-out case coincide with end of input. -/
def type4Scan (s : List Nat) : Nat → Nat → Nat → Nat → Option (Nat × Nat)
  | fuel, pos, lead, trail =>
    if checkForVideoType4 lead trail then some (pos, lead)
    else
      match fuel with
      | 0 => none
      | fuel + 1 =>
        match s[pos]? with
        | none => none
        | some c =>
          type4Scan s fuel (pos + 1)
            ((lead % 0x1000000) * 0x100 + trail / 0x1000000 % 0x100) (shiftWord32 trail c)

/-- doRepairType4 (src/djifix.c:1034-1083): repeatedly read a 4-byte NAL
size; on an anomalous size read a lookahead word and scan for the Type 4
resume signature, then seek back 4 (the payload starts at the trail word of
the matched window); write a start code and copy the payload. -/
def doRepairType4 (s : List Nat) : Nat → Nat → List Nat → List Nat
  | 0, _, out => out
  | fuel + 1, pos, out =>
    match get4Bytes s pos with
    | none => out
    | some nalSize =>
      if type2or4Anomalous nalSize then
        match get4Bytes s (pos + 4) with
        | none => out
        | some next4Bytes =>
          match type4Scan s (s.length - (pos + 8)) (pos + 8) nalSize next4Bytes with
          | none => out
          | some (q, n) => doRepairType4 s fuel (q - 4 + n) (out ++ startCode ++ copyNal s (q - 4) n)
      else doRepairType4 s fuel (pos + 4 + nalSize) (out ++ startCode ++ copyNal s (pos + 4) nalSize)

/-- test `(nalSize&0xFFFF0000) == 0x01FE0000` (src/djifix.c:1179): the 4-byte
size is really the start of a 0x200-byte 'track 2' block. -/
def is01FETrack2 (nalSize : Nat) : Bool :=
  nalSize / 0x10000 % 0x10000 == 0x01FE

/-- tests of src/djifix.c:1185-1193: the high 16 bits mark a 0x1F9-byte
'track 2' block. -/
def is1F9Track2 (nalSize : Nat) : Bool :=
  let h := nalSize / 0x10000 % 0x10000
  h == 0x211C || h == 0x212C || h == 0x214E || h == 0x217C || h == 0x2ECF
    || h == 0x3811 || h == 0x5D9C || h == 0x5DBB || h == 0x8021

/-- test of src/djifix.c:1199-1200: the 4-byte size is really the start of a
block from a 'metadata' track (`nalSize == 0x05c64e6f`, or high 16 bits
0x00f8 with lookahead word 0x20303020). -/
def isMetadataBlock (nalSize next4Bytes : Nat) : Bool :=
  nalSize == 0x05c64e6f
    || (nalSize / 0x10000 % 0x10000 == 0x00f8 && next4Bytes == 0x20303020)

/-- printability test of src/djifix.c:1222-1225: the C code zeroes the count
when ANY of the word's four bytes lies outside [0x20, 0x7E]; this is the
complement (all four bytes printable ASCII). -/
def printable4 (w : Nat) : Bool :=
  !(decide (w / 0x1000000 % 0x100 < 0x20) || decide (0x7E < w / 0x1000000 % 0x100)
    || decide (w / 0x10000 % 0x100 < 0x20) || decide (0x7E < w / 0x10000 % 0x100)
    || decide (w / 0x100 % 0x100 < 0x20) || decide (0x7E < w / 0x100 % 0x100)
    || decide (w % 0x100 < 0x20) || decide (0x7E < w % 0x100))

/-- observable events of one iteration of the Type 3/5 re-framing loop. -/
inductive Ev35 where
  | skip200
  | skip1F9
  | metaVarSkip (count : Nat)
  | metaDisable
  | skip100
  | anomalyStop
  | nalUnit (size : Nat)
deriving DecidableEq

/-- the action one iteration of the Type 3/5 loop decides on. -/
inductive Act35 where
  | stop
  | anomaly
  | skipTo (newPos : Nat) (e : Ev35)
  | metaFail (newPos : Nat)
  | emit (nalSize payloadPos : Nat)
deriving DecidableEq

/-- one iteration of the loop body of doRepairType3or5Common
(src/djifix.c:1174-1280), as a decision function: read the 4-byte size at
`pos` and the 4-byte lookahead at `pos+4` (which is immediately seeked back
over, leaving the cursor at `pos+4`), then dispatch in source order:
0x200-byte 'track 2' skip; 0x1F9-byte 'track 2' skip; metadata block
(fixed count 0x05c6 with the cursor backed up 2 bytes, or a 0xF6-byte binary
prefix followed by a 2-byte count; validated, when the count is ≥ 4 and
`metadataIsPrintable` is still set, by peeking 4 printable-ASCII bytes; a
failed validation backs up 2 bytes and clears the flag); 0x100-byte metadata
skip; the anomaly stop; or a normal NAL unit whose payload starts at
`pos+4`. Read failures are the C `return`s. -/
def step35 (s : List Nat) (pos : Nat) (metadataIsPrintable : Bool) : Act35 :=
  match get4Bytes s pos with
  | none => .stop
  | some nalSize =>
    match get4Bytes s (pos + 4) with
    | none => .stop
    | some next4Bytes =>
      if is01FETrack2 nalSize then .skipTo (pos + 4 + (0x200 - 4)) .skip200
      else if is1F9Track2 nalSize then .skipTo (pos + 4 + (0x1F9 - 4)) .skip1F9
      else if isMetadataBlock nalSize next4Bytes then
        let countAndPos : Option (Nat × Nat) :=
          if nalSize == 0x05c64e6f then some (0x05c6, pos + 4 - 2)
          else (get2Bytes s (pos + 4 + 0xF6)).map (fun cnt => (cnt, pos + 4 + 0xF6 + 2))
        match countAndPos with
        | none => .stop
        | some (remainingMetadataSize, posC) =>
          if decide (4 ≤ remainingMetadataSize) && metadataIsPrintable then
            match get4Bytes s posC with
            | none => .stop
            | some probe =>
              if printable4 probe then .skipTo (posC + remainingMetadataSize) (.metaVarSkip remainingMetadataSize)
              else .metaFail (posC - 2)
          else .metaFail (posC - 2)
      else if nalSize == 0x00fe462f then .skipTo (pos + 4 + (0x100 - 4)) .skip100
      else if type35Anomalous nalSize then .anomaly
      else .emit nalSize (pos + 4)

/-- prepend an event to the event trace of a loop result. -/
def consEv (e : Ev35) : List Nat × List Ev35 → List Nat × List Ev35
  | (out, evs) => (out, e :: evs)

/-- doRepairType3or5Common (src/djifix.c:1165-1288) from the point after the
parameter sets have been written: iterate `step35`, threading the
`metadataIsPrintable` flag (a C global, initially 1), the output, and
producing the per-iteration event trace.  A skip writes nothing; a failed
metadata validation clears the flag for the remainder of the run; an
anomalous NAL size terminates the loop keeping the output written so far;
a normal NAL unit appends a start code and its payload. -/
def doRepairType3or5Common (s : List Nat) : Nat → Nat → Bool → List Nat → List Nat × List Ev35
  | 0, _, _, out => (out, [])
  | fuel + 1, pos, flag, out =>
    match step35 s pos flag with
    | .stop => (out, [])
    | .anomaly => (out, [.anomalyStop])
    | .skipTo p e => consEv e (doRepairType3or5Common s fuel p flag out)
    | .metaFail p => consEv .metaDisable (doRepairType3or5Common s fuel p false out)
    | .emit n payloadPos =>
        consEv (.nalUnit n)
          (doRepairType3or5Common s fuel (payloadPos + n) flag
            (out ++ startCode ++ copyNal s payloadPos n))

/-- result of the file-start classification loop in main (src/djifix.c:274-338):
the 'ftyp'/'isom' branch (repair type 1) with the skip distance applied to the
declared size and the cursor position after the skip; the 0x00000002 branch
(repair type 2) remembering the trail word; or end of input (fatal). -/
inductive StartClass where
  | type1 (skipped : Nat) (pos : Nat)
  | type2 (second4Bytes : Nat) (pos : Nat)
  | unrepairable
deriving DecidableEq

/-- the classification loop of main (src/djifix.c:285-336), entered with the
first two words `first4Bytes`, `next4Bytes` in hand and the cursor at `pos`
(= 8 for a fresh file).  Branch order as in the source: 'ftyp'/'isom' tag
(a size outside [8, 0xFF] is ignored rather than seeked over); the legacy
0x00000002 signature; skipping whole 0x00000000/0xFFFFFFFF words; otherwise
shift the window one byte.  End of input in the latter two branches is
fatal. -/
def classifyLoop (s : List Nat) : Nat → Nat → Nat → Nat → StartClass
  | 0, _, _, _ => .unrepairable
  | fuel + 1, first4Bytes, next4Bytes, pos =>
    if next4Bytes == fourcc_ftyp || next4Bytes == fourcc_isom then
      if decide (first4Bytes < 8) || decide (0x000000FF < first4Bytes) then .type1 0 pos
      else .type1 (first4Bytes - 8) (pos + (first4Bytes - 8))
    else if checkFor0x00000002 first4Bytes next4Bytes then .type2 next4Bytes pos
    else if first4Bytes == 0x00000000 || first4Bytes == 0xFFFFFFFF then
      match get4Bytes s pos with
      | none => .unrepairable
      | some w => classifyLoop s fuel next4Bytes w (pos + 4)
    else
      match get1Byte s pos with
      | none => .unrepairable
      | some c =>
        classifyLoop s fuel ((first4Bytes % 0x1000000) * 0x100 + next4Bytes / 0x1000000 % 0x100)
          (shiftWord32 next4Bytes c) (pos + 1)

/-- the file-start classification (src/djifix.c:274-338): read the first two
4-byte words and run the loop; too short a file is unrepairable.  The fuel
`s.length + 1` is enough: every loop iteration consumes at least one byte. -/
def classifyFileStart (s : List Nat) : StartClass :=
  match get4Bytes s 0, get4Bytes s 4 with
  | some first4Bytes, some next4Bytes => classifyLoop s (s.length + 1) first4Bytes next4Bytes 8
  | _, _ => .unrepairable

/-- the value of the Type 2 recovery accumulator after shifting in `k` bytes
starting at `pos` (bytes past the end contribute a default that is never used
under the lemmas below, which only look below `s.length`). -/
def recWindow (s : List Nat) (acc pos : Nat) : Nat → Nat
  | 0 => acc
  | k + 1 => shiftWord32 (recWindow s acc pos k) (s.getD (pos + k) 0)

/-- test whether the 8-byte window starting at position `p` of the input
satisfies the legacy 2-byte-NAL signature checkFor0x00000002 (windows that
run past the end of the input cannot match). -/
def legacyWindowAt (s : List Nat) (p : Nat) : Bool :=
  match get4Bytes s p, get4Bytes s (p + 4) with
  | some lead, some trail => checkFor0x00000002 lead trail
  | _, _ => false

/-- no 8-byte window anywhere in the input satisfies the legacy signature
(positions at or past `s.length` cannot carry a window, see
`noLegacyWindow_iff`). -/
def noLegacyWindow (s : List Nat) : Bool :=
  (List.range s.length).all fun p => ! legacyWindowAt s p

/-- Modelled from the spec claim C4's words, for comparison with
`checkForVideo`: the legacy signature, or a high byte of `trail` among the
four markers 0x26/0x27/0x40/0x67 with `lead` in a plausible small range of
roughly 10 to 60. -/
def checkForVideoClaimC4 (lead trail : Nat) : Bool :=
  checkFor0x00000002 lead trail
    || ((trail / 0x1000000 % 0x100 == 0x26 || trail / 0x1000000 % 0x100 == 0x27
          || trail / 0x1000000 % 0x100 == 0x40 || trail / 0x1000000 % 0x100 == 0x67)
        && decide (10 ≤ lead) && decide (lead ≤ 60))

/-- concrete Type 2 input (bytes after the matched window) for claim C2: the
first NAL size completes to 2, the next length field is 0x00000000, recovery
scans to the byte 0x02 (shifted window 0x00000002) and the loop resumes even
though the bytes that follow (00 00) violate the legacy signature there. -/
def type2ZeroLenInput : List Nat :=
  [0x00, 0x02, 0xAA, 0xBB, 0x00, 0x00, 0x00, 0x00, 0x02, 0x00, 0x00]

/-- concrete Type 3/5 input for claim C9: a metadata-block candidate (length
field 0x00f80000, lookahead 0x20303020), 0xF6 bytes of binary prefix, the
2-byte count 00 05, and a 4-byte tail starting with the non-printable byte
0x00, so that the printable-ASCII validation fails. -/
def metaFailInput : List Nat :=
  [0x00, 0xF8, 0x00, 0x00] ++ [0x20, 0x30, 0x30, 0x20]
    ++ List.replicate 0xF2 0 ++ [0x00, 0x05] ++ [0x00, 0x41, 0x41, 0x41]

/-- concrete Type 3/5 input whose run performs skips and a metadata disable,
used to witness the trace part of claim C9. -/
def metaFailInput2 : List Nat := metaFailInput ++ [0x00, 0x00, 0x00, 0x01, 0x42]

lemma get1Byte_eq_none_iff (s : List Nat) (pos : Nat) :
    get1Byte s pos = none ↔ s.length ≤ pos := by
  simp [get1Byte, List.getElem?_eq_none_iff]

lemma get4Bytes_eq_none_of_len (s : List Nat) (pos : Nat) (h : s.length ≤ pos) :
    get4Bytes s pos = none := by
  unfold get4Bytes
  rw [(get1Byte_eq_none_iff s pos).mpr h]

lemma get4Bytes_be32_first (n : Nat) (r : List Nat) (h : n < 0x100000000) :
    get4Bytes (be32 n ++ r) 0 = some n := by
  simp [get4Bytes, get1Byte, be32]
  omega

lemma get4Bytes_append_add (l t : List Nat) (k : Nat) :
    get4Bytes (l ++ t) (l.length + k) = get4Bytes t k := by
  have h1 : ∀ j : Nat, get1Byte (l ++ t) (l.length + (k + j)) = get1Byte t (k + j) := by
    intro j
    simp [get1Byte, List.getElem?_append_right]
  unfold get4Bytes
  have e0 := h1 0
  have e1 := h1 1
  have e2 := h1 2
  have e3 := h1 3
  simp only [Nat.add_zero] at e0
  rw [show l.length + k + 1 = l.length + (k + 1) by omega,
      show l.length + k + 2 = l.length + (k + 2) by omega,
      show l.length + k + 3 = l.length + (k + 3) by omega,
      e0, e1, e2, e3]

lemma get4Bytes_be32_second (a m : Nat) (r : List Nat) (h : m < 0x100000000) :
    get4Bytes (be32 a ++ (be32 m ++ r)) 4 = some m := by
  have hlen : (be32 a).length + 0 = 4 := by simp [be32]
  have h4 := get4Bytes_append_add (be32 a) (be32 m ++ r) 0
  rw [hlen] at h4
  rw [h4]
  exact get4Bytes_be32_first m r h

lemma copyNal_length (s : List Nat) : ∀ len pos, (copyNal s pos len).length = len := by
  intro len
  induction len with
  | zero => intro pos; rfl
  | succ n ih => intro pos; simp [copyNal, ih]

lemma copyNal_getD_past_end (s : List Nat) :
    ∀ len pos i, i < len → s.length ≤ pos + i → (copyNal s pos len).getD i 0 = 0xFF := by
  intro len
  induction len with
  | zero => intro pos i hi; omega
  | succ n ih =>
    intro pos i hi hpast
    cases i with
    | zero =>
      have hnone : get1Byte s pos = none := (get1Byte_eq_none_iff s pos).mpr (by omega)
      simp [copyNal, hnone]
    | succ j =>
      have := ih (pos + 1) j (by omega) (by omega)
      simpa [copyNal] using this

lemma copyNal_getD_in_range (s : List Nat) :
    ∀ len pos i, i < len → pos + i < s.length →
      (copyNal s pos len).getD i 0 = s.getD (pos + i) 0 % 0x100 := by
  intro len
  induction len with
  | zero => intro pos i hi; omega
  | succ n ih =>
    intro pos i hi hin
    cases i with
    | zero =>
      have hsome : s[pos]? = some s[pos] := List.getElem?_eq_getElem (by omega)
      simp [copyNal, get1Byte, hsome, List.getD_eq_getElem?_getD]
    | succ j =>
      have := ih (pos + 1) j (by omega) (by omega)
      rw [show pos + (j + 1) = pos + 1 + j by omega]
      simpa [copyNal] using this

lemma recWindow_shift (s : List Nat) (acc pos : Nat) :
    ∀ k, recWindow s acc pos (k + 1)
      = recWindow s (shiftWord32 acc (s.getD pos 0)) (pos + 1) k := by
  intro k
  induction k with
  | zero => simp [recWindow]
  | succ j ih =>
    show shiftWord32 (recWindow s acc pos (j + 1)) (s.getD (pos + (j + 1)) 0) = _
    rw [ih, show pos + (j + 1) = pos + 1 + j by omega]
    rfl

lemma doRepairType2Recover_sound (s : List Nat) :
    ∀ fuel pos acc p, doRepairType2Recover s fuel pos acc = some p →
      pos < p ∧ p ≤ s.length ∧ recWindow s acc pos (p - pos) = 2 ∧
        ∀ k, 0 < k → k < p - pos → recWindow s acc pos k ≠ 2 := by
  intro fuel
  induction fuel with
  | zero => intro pos acc p h; exact absurd h (by simp [doRepairType2Recover])
  | succ n ih =>
    intro pos acc p h
    unfold doRepairType2Recover at h
    split at h
    · exact Option.noConfusion h
    · rename_i c hb
      have hpos : pos < s.length := by
        by_contra hge
        rw [List.getElem?_eq_none (by omega)] at hb
        exact Option.noConfusion hb
      have hgetD : s.getD pos 0 = c := by
        rw [List.getD_eq_getElem?_getD, hb]; rfl
      split at h
      · rename_i h2
        have hp : p = pos + 1 := by simpa using h.symm
        subst hp
        refine ⟨by omega, by omega, ?_, ?_⟩
        · rw [show pos + 1 - pos = 1 by omega, recWindow_shift, hgetD]
          simpa [recWindow] using h2
        · intro k hk0 hk1; omega
      · rename_i h2
        obtain ⟨hlt, hle, hwin, hmin⟩ := ih (pos + 1) (shiftWord32 acc c) p h
        refine ⟨by omega, hle, ?_, ?_⟩
        · rw [show p - pos = (p - (pos + 1)) + 1 by omega, recWindow_shift, hgetD]
          exact hwin
        · intro k hk0 hk1
          cases k with
          | zero => omega
          | succ j =>
            rw [recWindow_shift, hgetD]
            cases Nat.eq_zero_or_pos j with
            | inl hj0 => subst hj0; simpa [recWindow] using h2
            | inr hjpos => exact hmin j hjpos (by omega)

lemma noLegacyWindow_iff (s : List Nat) :
    noLegacyWindow s = true ↔ ∀ p, legacyWindowAt s p = false := by
  constructor
  · intro h p
    by_cases hp : p < s.length
    · have := (List.all_eq_true.mp h) p (List.mem_range.mpr hp)
      simpa using this
    · unfold legacyWindowAt
      rw [get4Bytes_eq_none_of_len s p (by omega)]
  · intro h
    exact List.all_eq_true.mpr fun p _ => by simp [h p]

lemma doRepairType2Loop_step_eof (s : List Nat) (fuel pos nalSize : Nat) (out : List Nat)
    (h : get4Bytes s (pos + nalSize) = none) :
    doRepairType2Loop s (fuel + 1) pos nalSize out = out ++ startCode ++ copyNal s pos nalSize := by
  conv_lhs => unfold doRepairType2Loop
  rw [h]

lemma doRepairType2Loop_step_anomalous (s : List Nat) (fuel pos nalSize : Nat) (out : List Nat)
    (n : Nat) (h : get4Bytes s (pos + nalSize) = some n) (ha : type2or4Anomalous n = true) :
    doRepairType2Loop s (fuel + 1) pos nalSize out =
      match doRepairType2Recover s (s.length - (pos + nalSize + 4)) (pos + nalSize + 4) n with
      | none => out ++ startCode ++ copyNal s pos nalSize
      | some p => doRepairType2Loop s fuel p 2 (out ++ startCode ++ copyNal s pos nalSize) := by
  conv_lhs => unfold doRepairType2Loop
  rw [h]
  simp only [ha, if_true]

lemma doRepairType2Loop_step_normal (s : List Nat) (fuel pos nalSize : Nat) (out : List Nat)
    (n : Nat) (h : get4Bytes s (pos + nalSize) = some n) (ha : type2or4Anomalous n = false) :
    doRepairType2Loop s (fuel + 1) pos nalSize out =
      doRepairType2Loop s fuel (pos + nalSize + 4) n (out ++ startCode ++ copyNal s pos nalSize) := by
  conv_lhs => unfold doRepairType2Loop
  rw [h]
  simp only [ha, Bool.false_eq_true, if_false]

lemma doRepairType4_step_anomalous (s : List Nat) (fuel pos : Nat) (out : List Nat)
    (n : Nat) (h : get4Bytes s pos = some n) (ha : type2or4Anomalous n = true) :
    doRepairType4 s (fuel + 1) pos out =
      match get4Bytes s (pos + 4) with
      | none => out
      | some next4Bytes =>
        match type4Scan s (s.length - (pos + 8)) (pos + 8) n next4Bytes with
        | none => out
        | some (q, m) => doRepairType4 s fuel (q - 4 + m) (out ++ startCode ++ copyNal s (q - 4) m) := by
  conv_lhs => unfold doRepairType4
  rw [h]
  simp only [ha, if_true]

lemma doRepairType4_step_normal (s : List Nat) (fuel pos : Nat) (out : List Nat)
    (n : Nat) (h : get4Bytes s pos = some n) (ha : type2or4Anomalous n = false) :
    doRepairType4 s (fuel + 1) pos out =
      doRepairType4 s fuel (pos + 4 + n) (out ++ startCode ++ copyNal s (pos + 4) n) := by
  conv_lhs => unfold doRepairType4
  rw [h]
  simp only [ha, Bool.false_eq_true, if_false]

lemma step35_skip200 (s : List Nat) (pos : Nat) (flag : Bool) (n next4Bytes : Nat)
    (hn : get4Bytes s pos = some n) (hm : get4Bytes s (pos + 4) = some next4Bytes)
    (h1 : is01FETrack2 n = true) :
    step35 s pos flag = .skipTo (pos + 4 + (0x200 - 4)) .skip200 := by
  unfold step35
  rw [hn, hm]
  simp only [h1, if_true]

lemma step35_anomaly (s : List Nat) (pos : Nat) (flag : Bool) (n next4Bytes : Nat)
    (hn : get4Bytes s pos = some n) (hm : get4Bytes s (pos + 4) = some next4Bytes)
    (h1 : is01FETrack2 n = false) (h2 : is1F9Track2 n = false)
    (h3 : isMetadataBlock n next4Bytes = false) (h4 : n ≠ 0x00fe462f)
    (h5 : type35Anomalous n = true) :
    step35 s pos flag = .anomaly := by
  have h4' : (n == 0x00fe462f) = false := by simpa using h4
  unfold step35
  rw [hn, hm]
  simp only [h1, h2, h3, h4', h5, Bool.false_eq_true, if_false, if_true]

lemma step35_emit (s : List Nat) (pos : Nat) (flag : Bool) (n next4Bytes : Nat)
    (hn : get4Bytes s pos = some n) (hm : get4Bytes s (pos + 4) = some next4Bytes)
    (h1 : is01FETrack2 n = false) (h2 : is1F9Track2 n = false)
    (h3 : isMetadataBlock n next4Bytes = false) (h4 : n ≠ 0x00fe462f)
    (h5 : type35Anomalous n = false) :
    step35 s pos flag = .emit n (pos + 4) := by
  have h4' : (n == 0x00fe462f) = false := by simpa using h4
  unfold step35
  rw [hn, hm]
  simp only [h1, h2, h3, h4', h5, Bool.false_eq_true, if_false]

lemma step35_metaFail_f8 (s : List Nat) (pos : Nat) (n cnt probe : Nat)
    (hn : get4Bytes s pos = some n)
    (hm : get4Bytes s (pos + 4) = some 0x20303020)
    (hf8 : n / 0x10000 % 0x10000 = 0x00f8)
    (hcnt : get2Bytes s (pos + 4 + 0xF6) = some cnt) (h4cnt : 4 ≤ cnt)
    (hprobe : get4Bytes s (pos + 4 + 0xF6 + 2) = some probe)
    (hnp : printable4 probe = false) :
    step35 s pos true = .metaFail (pos + 4 + 0xF6) := by
  have h1 : is01FETrack2 n = false := by simp [is01FETrack2, hf8]
  have h2 : is1F9Track2 n = false := by simp [is1F9Track2, hf8]
  have h3 : isMetadataBlock n 0x20303020 = true := by simp [isMetadataBlock, hf8]
  have hne : (n == 0x05c64e6f) = false := by
    have : n ≠ 0x05c64e6f := by
      intro he; rw [he] at hf8; norm_num at hf8
    simpa using this
  unfold step35
  rw [hn, hm]
  simp only [h1, h2, h3, hne, Bool.false_eq_true, if_false, if_true]
  rw [hcnt]
  simp only [Option.map_some']
  rw [hprobe]
  simp only [decide_eq_true (by omega : (4:Nat) ≤ cnt), Bool.and_self, if_true, hnp,
    Bool.false_eq_true, if_false, Nat.add_sub_cancel]

lemma step35_flag_false_no_varskip (s : List Nat) (pos p c : Nat) :
    step35 s pos false ≠ .skipTo p (.metaVarSkip c) := by
  unfold step35
  cases get4Bytes s pos with
  | none => simp
  | some n =>
    cases get4Bytes s (pos + 4) with
    | none => simp
    | some m =>
      repeat' split
      all_goals try simp
      all_goals cases get2Bytes s (pos + 4 + 246) <;> simp

lemma consEv_snd (e : Ev35) (r : List Nat × List Ev35) : (consEv e r).2 = e :: r.2 := by
  cases r; rfl

lemma consEv_fst (e : Ev35) (r : List Nat × List Ev35) : (consEv e r).1 = r.1 := by
  cases r; rfl

lemma doRepairType3or5Common_step (s : List Nat) (fuel pos : Nat) (flag : Bool) (out : List Nat) :
    doRepairType3or5Common s (fuel + 1) pos flag out =
      match step35 s pos flag with
      | .stop => (out, [])
      | .anomaly => (out, [.anomalyStop])
      | .skipTo p e => consEv e (doRepairType3or5Common s fuel p flag out)
      | .metaFail p => consEv .metaDisable (doRepairType3or5Common s fuel p false out)
      | .emit n payloadPos =>
          consEv (.nalUnit n)
            (doRepairType3or5Common s fuel (payloadPos + n) flag
              (out ++ startCode ++ copyNal s payloadPos n)) := by
  conv_lhs => unfold doRepairType3or5Common

lemma run35_flag_false_no_varskip (s : List Nat) :
    ∀ fuel pos out c, Ev35.metaVarSkip c ∉ (doRepairType3or5Common s fuel pos false out).2 := by
  intro fuel
  induction fuel with
  | zero => intro pos out c; simp [doRepairType3or5Common]
  | succ n ih =>
    intro pos out c
    rw [doRepairType3or5Common_step]
    cases hstep : step35 s pos false with
    | stop => simp
    | anomaly => simp
    | skipTo p e =>
      simp only [consEv_snd, List.mem_cons]
      rintro (rfl | hmem)
      · exact step35_flag_false_no_varskip s pos p c hstep
      · exact ih p out c hmem
    | metaFail p =>
      simp only [consEv_snd, List.mem_cons]
      rintro (hc | hmem)
      · exact Ev35.noConfusion hc
      · exact ih p out c hmem
    | emit m payloadPos =>
      simp only [consEv_snd, List.mem_cons]
      rintro (hc | hmem)
      · exact Ev35.noConfusion hc
      · exact ih (payloadPos + m) (out ++ startCode ++ copyNal s payloadPos m) c hmem

/-- claim C8: re-running the Type 1 patch (doRepairType1) on its own output,
which is already correctly sized, reproduces byte-identical output: parsing
the leading 4-byte size back out of the patched file and re-patching the
remainder after the 8-byte header yields the same byte sequence. -/
theorem doRepairType1_idempotent (ftypSize : Nat) (hsize : ftypSize < 0x100000000)
    (rest : List Nat) :
    doRepairType1 ((get4Bytes (doRepairType1 ftypSize rest) 0).getD 0)
        ((doRepairType1 ftypSize rest).drop 8)
      = doRepairType1 ftypSize rest := by
  have hparse : get4Bytes (doRepairType1 ftypSize rest) 0 = some ftypSize := by
    unfold doRepairType1
    rw [List.append_assoc]
    exact get4Bytes_be32_first _ _ hsize
  have hdrop : (doRepairType1 ftypSize rest).drop 8 = rest.map (fun c => c % 0x100) := by
    unfold doRepairType1 be32
    rfl
  rw [hparse, hdrop]
  show doRepairType1 ftypSize _ = _
  unfold doRepairType1
  rw [List.map_map, show ((fun c => c % 0x100) ∘ fun c => c % 0x100) = fun c : Nat => c % 0x100
    from funext fun c => by simp]

/-- witness for C8 at ftypSize 24, rest [9, 300]. -/
theorem doRepairType1_idempotent_witness :
    (24 : Nat) < 0x100000000
    ∧ doRepairType1 ((get4Bytes (doRepairType1 24 [9, 300]) 0).getD 0)
        ((doRepairType1 24 [9, 300]).drop 8)
      = doRepairType1 24 [9, 300] :=
  ⟨by norm_num, doRepairType1_idempotent 24 (by norm_num) [9, 300]⟩

/-- claim C4 (amended): checkForVideo matches exactly when the legacy
signature checkFor0x00000002 matches, or the high byte of `next4Bytes` is
0x27 with 25 < lead < 60, 0x40 with 30 < lead < 60, or 0x67 with
10 < lead < 40.  The marker 0x26 is not recognized, and each marker has its
own range. -/
theorem checkForVideo_characterization (first4Bytes next4Bytes : Nat) :
    checkForVideo first4Bytes next4Bytes = true ↔
      (checkFor0x00000002 first4Bytes next4Bytes = true
        ∨ (next4Bytes / 0x1000000 % 0x100 = 0x27 ∧ 25 < first4Bytes ∧ first4Bytes < 60)
        ∨ (next4Bytes / 0x1000000 % 0x100 = 0x40 ∧ 30 < first4Bytes ∧ first4Bytes < 60)
        ∨ (next4Bytes / 0x1000000 % 0x100 = 0x67 ∧ 10 < first4Bytes ∧ first4Bytes < 40)) := by
  unfold checkForVideo checkFor0x00000002
  split
  · rename_i hguard
    simp only [bne_iff_ne, ne_eq] at hguard
    constructor
    · intro h; simp at h
    · rintro (h | h | h | h)
      · simp only [Bool.and_eq_true, beq_iff_eq, bne_iff_ne, ne_eq] at h
        exfalso; omega
      all_goals (exfalso; omega)
  · rename_i hguard
    simp only [bne_iff_ne, ne_eq, not_not] at hguard
    simp only [Bool.or_eq_true, Bool.and_eq_true, beq_iff_eq, bne_iff_ne, ne_eq,
      decide_eq_true_eq]
    omega

/-- counterexample for C4 as stated: for lead 35 and trail with high byte
0x26, the claim's predicate (marker set including 0x26, range 10..60)
matches but checkForVideo does not. -/
theorem checkForVideo_claim_counterexample :
    checkForVideoClaimC4 35 0x26010000 = true ∧ checkForVideo 35 0x26010000 = false := by
  decide

/-- claim C6 (amended): checkAtom accepts a matching 'mdat' box for every
declared size (the size field is never consulted, so sizes below 8 and even
the extended-size marker 1 are accepted); for any other matching tag, size 1
is the fatal extended-size case, sizes ≥ 8 hand the caller `size - 8` bytes
to skip, and the remaining sizes (0 and 2..7) are rejected with an 8-byte
rewind rather than producing a skip count. -/
theorem checkAtom_size_handling :
    (∀ size rest, size < 0x100000000 →
      checkAtom (be32 size ++ (be32 fourcc_mdat ++ rest)) 0 fourcc_mdat = .matchedMdat)
    ∧ (∀ tag4 rest, tag4 < 0x100000000 → tag4 ≠ fourcc_mdat →
        checkAtom (be32 1 ++ (be32 tag4 ++ rest)) 0 tag4 = .fatalExtendedSize)
    ∧ (∀ size tag4 rest, tag4 < 0x100000000 → tag4 ≠ fourcc_mdat →
        8 ≤ size → size < 0x100000000 →
        checkAtom (be32 size ++ (be32 tag4 ++ rest)) 0 tag4 = .matched (size - 8))
    ∧ (∀ size tag4 rest, tag4 < 0x100000000 → tag4 ≠ fourcc_mdat →
        size ≠ 1 → size < 8 →
        checkAtom (be32 size ++ (be32 tag4 ++ rest)) 0 tag4 = .noMatch) := by
  refine ⟨?_, ?_, ?_, ?_⟩
  · intro size rest hsize
    unfold checkAtom
    rw [get4Bytes_be32_first _ _ hsize,
      get4Bytes_be32_second _ _ _ (by norm_num [fourcc_mdat])]
    simp
  · intro tag4 rest htag hne
    unfold checkAtom
    rw [get4Bytes_be32_first _ _ (by norm_num),
      get4Bytes_be32_second _ _ _ htag]
    simp [hne]
  · intro size tag4 rest htag hne h8 hsize
    unfold checkAtom
    rw [get4Bytes_be32_first _ _ hsize, get4Bytes_be32_second _ _ _ htag]
    have h1 : (size == 1) = false := by simp; omega
    have h2 : decide (size < 8) = false := by simp; omega
    simp [hne, h1, h2]
  · intro size tag4 rest htag hne h1 h8
    unfold checkAtom
    rw [get4Bytes_be32_first _ _ (by omega), get4Bytes_be32_second _ _ _ htag]
    have h1' : (size == 1) = false := by simp [h1]
    have h2 : decide (size < 8) = true := by simpa using h8
    simp [hne, h1', h2]

/-- witness for C6 at a 'mdat' with size 3, a 'moov' with size 1, a 'moov'
with size 20, and a 'moov' with size 0. -/
theorem checkAtom_size_handling_witness :
    checkAtom (be32 3 ++ (be32 fourcc_mdat ++ [7])) 0 fourcc_mdat = .matchedMdat
    ∧ checkAtom (be32 1 ++ (be32 fourcc_moov ++ [7])) 0 fourcc_moov = .fatalExtendedSize
    ∧ checkAtom (be32 20 ++ (be32 fourcc_moov ++ [7])) 0 fourcc_moov = .matched (20 - 8)
    ∧ checkAtom (be32 0 ++ (be32 fourcc_moov ++ [7])) 0 fourcc_moov = .noMatch :=
  ⟨checkAtom_size_handling.1 3 [7] (by norm_num),
   checkAtom_size_handling.2.1 fourcc_moov [7] (by norm_num [fourcc_moov])
     (by norm_num [fourcc_moov, fourcc_mdat]),
   checkAtom_size_handling.2.2.1 20 fourcc_moov [7] (by norm_num [fourcc_moov])
     (by norm_num [fourcc_moov, fourcc_mdat]) (by norm_num) (by norm_num),
   checkAtom_size_handling.2.2.2 0 fourcc_moov [7] (by norm_num [fourcc_moov])
     (by norm_num [fourcc_moov, fourcc_mdat]) (by norm_num) (by norm_num)⟩

/-- counterexample for C6 as stated: a matching 'moov' box with declared
size 2 (which is not 1) does not hand the caller `size - 8` bytes to skip;
it is rejected with a rewind. -/
theorem checkAtom_small_size_counterexample :
    checkAtom [0x00, 0x00, 0x00, 0x02, 0x6D, 0x6F, 0x6F, 0x76] 0 fourcc_moov = .noMatch
    ∧ (checkAtom [0x00, 0x00, 0x00, 0x02, 0x6D, 0x6F, 0x6F, 0x76] 0 fourcc_moov).isMatched
        = false := by
  decide

/-- claim C5 (amended): for every input beginning with a file-type box whose
tag is 'ftyp' or 'isom' and whose declared size lies in [8, 0xFF], the
classifier takes the repair-type-1 branch and skips exactly `size - 8` bytes
past the 8-byte box header (the final cursor position is 8 + (size - 8)).
A size outside that range still selects type 1, but is ignored and nothing
is skipped. -/
theorem classify_ftyp_selects_type1 (size tag4 : Nat) (rest : List Nat)
    (htag : tag4 = fourcc_ftyp ∨ tag4 = fourcc_isom) (h8 : 8 ≤ size) (hFF : size ≤ 0xFF) :
    classifyFileStart (be32 size ++ (be32 tag4 ++ rest)) = .type1 (size - 8) (8 + (size - 8)) := by
  have htag32 : tag4 < 0x100000000 := by
    rcases htag with h | h <;> subst h <;> norm_num [fourcc_ftyp, fourcc_isom]
  unfold classifyFileStart
  rw [get4Bytes_be32_first _ _ (by omega), get4Bytes_be32_second _ _ _ htag32]
  conv_lhs => unfold classifyLoop
  have hcond : (tag4 == fourcc_ftyp || tag4 == fourcc_isom) = true := by
    rcases htag with h | h <;> subst h <;> simp
  have hsz : (decide (size < 8) || decide (0x000000FF < size)) = false := by
    simp only [Bool.or_eq_false_iff, decide_eq_false_iff_not, not_lt]
    omega
  simp only [hcond, hsz, Bool.false_eq_true, if_false, if_true]

/-- witness for C5 at size 16, tag 'ftyp', empty remainder. -/
theorem classify_ftyp_selects_type1_witness :
    classifyFileStart (be32 16 ++ (be32 fourcc_ftyp ++ [])) = .type1 (16 - 8) (8 + (16 - 8)) :=
  classify_ftyp_selects_type1 16 fourcc_ftyp [] (Or.inl rfl) (by norm_num) (by norm_num)

/-- counterexample for C5 as stated: an input beginning with a file-type box
of declared size 0x100 ≥ 8 and tag 'ftyp' selects type 1 but skips 0 bytes,
not `size - 8 = 248` (the out-of-range size is ignored). -/
theorem classify_ftyp_big_size_counterexample :
    classifyFileStart [0x00, 0x00, 0x01, 0x00, 0x66, 0x74, 0x79, 0x70] = .type1 0 8
    ∧ (0 : Nat) ≠ 0x100 - 8 := by
  decide

/-- claim C3 (amended): for the 8-byte window 00 00 00 02 27 64 00 2A the
legacy-signature predicate matches (0x27 ≠ 0, 0x64 ≠ 0, 0x00 = 0); the
window's trail bytes 27 64 become the first 2-byte NAL unit written after a
start code, and its low 16 bits 00 2A become the HIGH half of the first
4-byte NAL length, completed by the next two input bytes c1 c2
(`nalSize = ((second4Bytes & 0xFFFF) << 16) | (c1 << 8) | c2`). -/
theorem legacy_window_2764002A :
    checkFor0x00000002 0x00000002 0x2764002A = true
    ∧ (∀ c1 c2, c1 < 0x100 → c2 < 0x100 →
        type2FirstNalSize 0x2764002A c1 c2 = 0x002A * 0x10000 + c1 * 0x100 + c2)
    ∧ (∀ s fuel c1 c2, get1Byte s 0 = some c1 → get1Byte s 1 = some c2 →
        doRepairType2Body 0x2764002A s fuel
          = doRepairType2Loop s fuel 2 (type2FirstNalSize 0x2764002A c1 c2)
              (startCode ++ [0x27, 0x64])) := by
  refine ⟨by decide, ?_, ?_⟩
  · intro c1 c2 h1 h2
    unfold type2FirstNalSize
    norm_num
    omega
  · intro s fuel c1 c2 h0 h1
    unfold doRepairType2Body
    rw [h0, h1]

/-- witness for C3 with next input bytes 0x11 0x22 and the input
[0x11, 0x22]. -/
theorem legacy_window_2764002A_witness :
    type2FirstNalSize 0x2764002A 0x11 0x22 = 0x002A * 0x10000 + 0x11 * 0x100 + 0x22
    ∧ doRepairType2Body 0x2764002A [0x11, 0x22] 1
        = doRepairType2Loop [0x11, 0x22] 1 2 (type2FirstNalSize 0x2764002A 0x11 0x22)
            (startCode ++ [0x27, 0x64]) :=
  ⟨legacy_window_2764002A.2.1 0x11 0x22 (by norm_num) (by norm_num),
   legacy_window_2764002A.2.2 [0x11, 0x22] 1 0x11 0x22 (by decide) (by decide)⟩

/-- counterexample for C3 as stated: the window 00 00 00 02 27 64 00 2A does
NOT contribute the bytes 64 00 as the initial partial NAL length; the
contributed high half of the first NAL length is 0x002A (bytes 00 2A). -/
theorem type2FirstNalSize_counterexample :
    type2FirstNalSize 0x2764002A 0 0 = 0x002A0000
    ∧ type2FirstNalSize 0x2764002A 0 0 / 0x10000 ≠ 0x6400 := by
  decide

/-- claim C1: the anomaly conditions of the re-framing loops hold exactly
when the 4-byte length field is zero or exceeds the strategy ceiling
(0x008FFFFF for Types 2/4, 0x00FFFFFF for Types 3/5); in the Type 2 and
Type 4 loops an anomalous length triggers in-place recovery by signature
resynchronization (the output accumulated so far is carried through
unchanged, and a failed scan returns it as is), a non-anomalous length does
not; in the Type 3/5 loop an anomalous length that matches no side-track
pattern terminates the loop with all output written so far preserved. -/
theorem anomaly_check_and_recovery :
    (∀ nalSize, type2or4Anomalous nalSize = true ↔ (nalSize = 0 ∨ 0x008FFFFF < nalSize))
    ∧ (∀ nalSize, type35Anomalous nalSize = true ↔ (nalSize = 0 ∨ 0x00FFFFFF < nalSize))
    ∧ (∀ s fuel pos nalSize out n, get4Bytes s (pos + nalSize) = some n →
        type2or4Anomalous n = true →
        doRepairType2Loop s (fuel + 1) pos nalSize out =
          match doRepairType2Recover s (s.length - (pos + nalSize + 4)) (pos + nalSize + 4) n with
          | none => out ++ startCode ++ copyNal s pos nalSize
          | some p => doRepairType2Loop s fuel p 2 (out ++ startCode ++ copyNal s pos nalSize))
    ∧ (∀ s fuel pos nalSize out n, get4Bytes s (pos + nalSize) = some n →
        type2or4Anomalous n = false →
        doRepairType2Loop s (fuel + 1) pos nalSize out =
          doRepairType2Loop s fuel (pos + nalSize + 4) n (out ++ startCode ++ copyNal s pos nalSize))
    ∧ (∀ s fuel pos out n, get4Bytes s pos = some n → type2or4Anomalous n = true →
        doRepairType4 s (fuel + 1) pos out =
          match get4Bytes s (pos + 4) with
          | none => out
          | some next4Bytes =>
            match type4Scan s (s.length - (pos + 8)) (pos + 8) n next4Bytes with
            | none => out
            | some (q, m) => doRepairType4 s fuel (q - 4 + m) (out ++ startCode ++ copyNal s (q - 4) m))
    ∧ (∀ s fuel pos flag out n next4Bytes, get4Bytes s pos = some n →
        get4Bytes s (pos + 4) = some next4Bytes →
        is01FETrack2 n = false → is1F9Track2 n = false →
        isMetadataBlock n next4Bytes = false → n ≠ 0x00fe462f →
        type35Anomalous n = true →
        doRepairType3or5Common s (fuel + 1) pos flag out = (out, [Ev35.anomalyStop])) := by
  refine ⟨?_, ?_, ?_, ?_, ?_, ?_⟩
  · intro n; simp [type2or4Anomalous]
  · intro n; simp [type35Anomalous]
  · intro s fuel pos nalSize out n h ha
    exact doRepairType2Loop_step_anomalous s fuel pos nalSize out n h ha
  · intro s fuel pos nalSize out n h ha
    exact doRepairType2Loop_step_normal s fuel pos nalSize out n h ha
  · intro s fuel pos out n h ha
    exact doRepairType4_step_anomalous s fuel pos out n h ha
  · intro s fuel pos flag out n m hn hm h1 h2 h3 h4 h5
    rw [doRepairType3or5Common_step, step35_anomaly s pos flag n m hn hm h1 h2 h3 h4 h5]

/-- witness for C1: the Type 2 loop at a zero length with no recovery point
left, the Type 2 loop at a normal length 2, the Type 4 loop at a zero length
with a resynchronization point, and the Type 3/5 loop stopping on a zero
length. -/
theorem anomaly_check_and_recovery_witness :
    doRepairType2Loop [9, 9, 0, 0, 0, 0] 1 0 2 [] = [0x00, 0x00, 0x00, 0x01, 9, 9]
    ∧ doRepairType2Loop [0, 0, 0, 2] 1 0 0 [] = [0x00, 0x00, 0x00, 0x01]
    ∧ doRepairType4 [0, 0, 0, 0, 0, 0, 0, 2, 0, 1, 0xAA, 0xBB] 2 0 []
        = [0x00, 0x00, 0x00, 0x01, 0, 1]
    ∧ doRepairType3or5Common [0, 0, 0, 0, 0, 0, 0, 0] 1 0 true [] = ([], [Ev35.anomalyStop]) :=
  ⟨(anomaly_check_and_recovery.2.2.1 [9, 9, 0, 0, 0, 0] 0 0 2 [] 0 (by decide)
      (by decide)).trans (by decide),
   (anomaly_check_and_recovery.2.2.2.1 [0, 0, 0, 2] 0 0 0 [] 2 (by decide)
      (by decide)).trans (by decide),
   (anomaly_check_and_recovery.2.2.2.2.1 [0, 0, 0, 0, 0, 0, 0, 2, 0, 1, 0xAA, 0xBB] 1 0 [] 0
      (by decide) (by decide)).trans (by decide),
   anomaly_check_and_recovery.2.2.2.2.2 [0, 0, 0, 0, 0, 0, 0, 0] 0 0 true [] 0 0
      (by decide) (by decide) (by decide) (by decide) (by decide) (by decide) (by decide)⟩

/-- claim C2 (amended): in the Type 2 loop, reading a length field of
0x00000000 enters recovery; the recovery scan writes nothing (the output it
hands to the continuation is exactly the output written before the anomalous
length field, so no start code is emitted and no recovery byte is copied),
and it repositions the cursor exactly after the FIRST byte at which the
shifted 4-byte length window equals 0x00000002 — the bytes that follow this
resynchronization point are not checked against the legacy signature. -/
theorem type2_zero_length_recovery :
    (∀ s fuel pos nalSize out, get4Bytes s (pos + nalSize) = some 0 →
      doRepairType2Loop s (fuel + 1) pos nalSize out =
        match doRepairType2Recover s (s.length - (pos + nalSize + 4)) (pos + nalSize + 4) 0 with
        | none => out ++ startCode ++ copyNal s pos nalSize
        | some p => doRepairType2Loop s fuel p 2 (out ++ startCode ++ copyNal s pos nalSize))
    ∧ (∀ s fuel pos acc p, doRepairType2Recover s fuel pos acc = some p →
        pos < p ∧ p ≤ s.length ∧ recWindow s acc pos (p - pos) = 2 ∧
          ∀ k, 0 < k → k < p - pos → recWindow s acc pos k ≠ 2) := by
  constructor
  · intro s fuel pos nalSize out h
    exact doRepairType2Loop_step_anomalous s fuel pos nalSize out 0 h (by decide)
  · exact fun s => doRepairType2Recover_sound s

/-- witness for C2: a concrete zero-length step and a concrete recovery scan
that stops after the byte 0x02. -/
theorem type2_zero_length_recovery_witness :
    doRepairType2Loop [0, 0, 0, 0] 1 0 0 [] = [0x00, 0x00, 0x00, 0x01]
    ∧ 0 < 1 ∧ recWindow [2] 0 0 (1 - 0) = 2 :=
  ⟨(type2_zero_length_recovery.1 [0, 0, 0, 0] 0 0 0 [] (by decide)).trans (by decide),
   (type2_zero_length_recovery.2 [2] 1 0 0 1 (by decide)).1,
   (type2_zero_length_recovery.2 [2] 1 0 0 1 (by decide)).2.2.1⟩

/-- counterexample for C2 as stated: on type2ZeroLenInput the Type 2 engine
reads a zero length field (at position 4), enters recovery, and resumes at
position 9 where the 4-byte window equals 0x00000002 — and then emits a
start code — although NO 8-byte window anywhere in the input satisfies the
legacy signature checkFor0x00000002, so the claim "emits no start code until
a subsequent window matches the legacy 2-byte-NAL signature" is false: the
recovery scan checks only the 4-byte length window, never the trailing
bytes. -/
theorem type2_zero_length_claim_counterexample :
    checkFor0x00000002 0x00000002 0x27640000 = true
    ∧ get4Bytes type2ZeroLenInput 4 = some 0
    ∧ doRepairType2Recover type2ZeroLenInput 3 8 0 = some 9
    ∧ doRepairType2Body 0x27640000 type2ZeroLenInput 3
        = [0x00, 0x00, 0x00, 0x01, 0x27, 0x64]
            ++ [0x00, 0x00, 0x00, 0x01, 0xAA, 0xBB]
            ++ [0x00, 0x00, 0x00, 0x01, 0x00, 0x00]
    ∧ noLegacyWindow type2ZeroLenInput = true := by
  decide

/-- claim C7: in the Type 3/5 loop, a 4-byte length field whose high 16 bits
equal 0x01FE makes the loop advance the cursor by exactly 0x200 - 4 = 508
bytes beyond the 4 bytes already consumed, writing no start code and no
payload for that block (the output is carried to the continuation
unchanged). -/
theorem track2_01FE_block_skip :
    (∀ nalSize, is01FETrack2 nalSize = true ↔ nalSize / 0x10000 % 0x10000 = 0x01FE)
    ∧ (∀ s fuel pos flag out nalSize next4Bytes,
        get4Bytes s pos = some nalSize → get4Bytes s (pos + 4) = some next4Bytes →
        is01FETrack2 nalSize = true →
        doRepairType3or5Common s (fuel + 1) pos flag out =
          consEv .skip200 (doRepairType3or5Common s fuel (pos + 4 + (0x200 - 4)) flag out)) := by
  constructor
  · intro n; simp [is01FETrack2]
  · intro s fuel pos flag out n m hn hm h1
    rw [doRepairType3or5Common_step, step35_skip200 s pos flag n m hn hm h1]

/-- witness for C7 at a concrete block with length field 0x01FE0000. -/
theorem track2_01FE_block_skip_witness :
    doRepairType3or5Common [0x01, 0xFE, 0, 0, 0, 0, 0, 0] 1 0 true []
      = ([], [Ev35.skip200]) :=
  (track2_01FE_block_skip.2 [0x01, 0xFE, 0, 0, 0, 0, 0, 0] 0 0 true [] 0x01FE0000 0
    (by decide) (by decide) (by decide)).trans (by decide)

/-- claim C9: once the printable-ASCII validation of a variable-size
metadata block fails in the Type 3/5 loop, metadata-printable detection
stays disabled for the remainder of the run — no later iteration of a run
whose `metadataIsPrintable` flag is cleared ever performs a variable-size
metadata skip — and on the failing iteration the cursor is backed up to the
position of the two candidate count bytes (pos + 4 + 0xF6), where the next
iteration re-reads them as the first two bytes of a literal 4-byte length
field, with the flag cleared from then on. -/
theorem metadata_disable_permanent :
    (∀ s fuel pos out count,
      Ev35.metaVarSkip count ∉ (doRepairType3or5Common s fuel pos false out).2)
    ∧ (∀ s fuel pos out nalSize cnt probe,
        get4Bytes s pos = some nalSize →
        get4Bytes s (pos + 4) = some 0x20303020 →
        nalSize / 0x10000 % 0x10000 = 0x00f8 →
        get2Bytes s (pos + 4 + 0xF6) = some cnt → 4 ≤ cnt →
        get4Bytes s (pos + 4 + 0xF6 + 2) = some probe → printable4 probe = false →
        doRepairType3or5Common s (fuel + 1) pos true out =
          consEv .metaDisable (doRepairType3or5Common s fuel (pos + 4 + 0xF6) false out)) := by
  constructor
  · intro s fuel pos out count
    exact run35_flag_false_no_varskip s fuel pos out count
  · intro s fuel pos out n cnt probe hn hm hf8 hcnt h4 hprobe hnp
    rw [doRepairType3or5Common_step, step35_metaFail_f8 s pos n cnt probe hn hm hf8 hcnt h4 hprobe hnp]

set_option maxRecDepth 16000 in
/-- witness for C9: a concrete failing validation (count 5, first tail byte
0x00) that clears the flag and backs up to the count bytes, and a concrete
disabled run containing no variable-size metadata skip event. -/
theorem metadata_disable_permanent_witness :
    Ev35.metaVarSkip 7 ∉ (doRepairType3or5Common metaFailInput2 3 0 false []).2
    ∧ doRepairType3or5Common metaFailInput 2 0 true [] = ([], [Ev35.metaDisable]) :=
  ⟨metadata_disable_permanent.1 metaFailInput2 3 0 [] 7,
   (metadata_disable_permanent.2 metaFailInput 1 0 [] 0x00f80000 5 0x00414141
      (by decide) (by decide) (by decide) (by decide) (by decide) (by decide)
      (by decide)).trans (by decide)⟩

/-- claim C10: in every re-framing variant, the payload copy after a start
code writes exactly `nalSize` bytes, with every byte at or past end of input
written as the 0xFF filler (the EOF return value of the byte read truncated
by the byte write) and every byte before end of input copied from the input;
the Type 2, Type 4 and Type 3/5 loop iterations all append
`startCode ++ copyNal ...` for the declared length, so the final NAL of a
truncated file is written in full rather than truncated at end of input. -/
theorem eof_payload_filled_with_FF :
    (∀ s pos len, (copyNal s pos len).length = len)
    ∧ (∀ s pos len i, i < len → s.length ≤ pos + i → (copyNal s pos len).getD i 0 = 0xFF)
    ∧ (∀ s pos len i, i < len → pos + i < s.length →
        (copyNal s pos len).getD i 0 = s.getD (pos + i) 0 % 0x100)
    ∧ (∀ s fuel pos nalSize out, get4Bytes s (pos + nalSize) = none →
        doRepairType2Loop s (fuel + 1) pos nalSize out = out ++ startCode ++ copyNal s pos nalSize)
    ∧ (∀ s fuel pos out nalSize, get4Bytes s pos = some nalSize →
        type2or4Anomalous nalSize = false →
        doRepairType4 s (fuel + 1) pos out =
          doRepairType4 s fuel (pos + 4 + nalSize) (out ++ startCode ++ copyNal s (pos + 4) nalSize))
    ∧ (∀ s fuel pos flag out nalSize next4Bytes,
        get4Bytes s pos = some nalSize → get4Bytes s (pos + 4) = some next4Bytes →
        is01FETrack2 nalSize = false → is1F9Track2 nalSize = false →
        isMetadataBlock nalSize next4Bytes = false → nalSize ≠ 0x00fe462f →
        type35Anomalous nalSize = false →
        doRepairType3or5Common s (fuel + 1) pos flag out =
          consEv (.nalUnit nalSize)
            (doRepairType3or5Common s fuel (pos + 4 + nalSize) flag
              (out ++ startCode ++ copyNal s (pos + 4) nalSize))) := by
  refine ⟨?_, ?_, ?_, ?_, ?_, ?_⟩
  · intro s pos len; exact copyNal_length s len pos
  · intro s pos len i h1 h2; exact copyNal_getD_past_end s len pos i h1 h2
  · intro s pos len i h1 h2; exact copyNal_getD_in_range s len pos i h1 h2
  · intro s fuel pos nalSize out h; exact doRepairType2Loop_step_eof s fuel pos nalSize out h
  · intro s fuel pos out nalSize h ha; exact doRepairType4_step_normal s fuel pos out nalSize h ha
  · intro s fuel pos flag out n m hn hm h1 h2 h3 h4 h5
    rw [doRepairType3or5Common_step, step35_emit s pos flag n m hn hm h1 h2 h3 h4 h5]

/-- witness for C10: a 5-byte NAL declared with only 4 input bytes left
(its last byte is filled with 0xFF), exercised through all three loops. -/
theorem eof_payload_filled_with_FF_witness :
    (copyNal [7, 8] 0 5).getD 4 0 = 0xFF
    ∧ (copyNal [7, 8] 0 5).getD 0 0 = 7 % 0x100
    ∧ doRepairType2Loop [7, 8] 1 0 5 [] = [] ++ startCode ++ copyNal [7, 8] 0 5
    ∧ doRepairType4 [0, 0, 0, 5, 9, 9, 9, 9] 1 0 []
        = doRepairType4 [0, 0, 0, 5, 9, 9, 9, 9] 0 (0 + 4 + 5)
            ([] ++ startCode ++ copyNal [0, 0, 0, 5, 9, 9, 9, 9] (0 + 4) 5)
    ∧ doRepairType3or5Common [0, 0, 0, 5, 9, 9, 9, 9] 1 0 true []
        = consEv (.nalUnit 5)
            (doRepairType3or5Common [0, 0, 0, 5, 9, 9, 9, 9] 0 (0 + 4 + 5) true
              ([] ++ startCode ++ copyNal [0, 0, 0, 5, 9, 9, 9, 9] (0 + 4) 5)) :=
  ⟨eof_payload_filled_with_FF.2.1 [7, 8] 0 5 4 (by norm_num) (by norm_num),
   eof_payload_filled_with_FF.2.2.1 [7, 8] 0 5 0 (by norm_num) (by norm_num),
   eof_payload_filled_with_FF.2.2.2.1 [7, 8] 0 0 5 [] (by decide),
   eof_payload_filled_with_FF.2.2.2.2.1 [0, 0, 0, 5, 9, 9, 9, 9] 0 0 [] 5
     (by decide) (by decide),
   eof_payload_filled_with_FF.2.2.2.2.2 [0, 0, 0, 5, 9, 9, 9, 9] 0 0 true [] 5 0x09090909
     (by decide) (by decide) (by decide) (by decide) (by decide) (by decide) (by decide)⟩
